import Mathlib

/-!
Verification of the product-search subsystem of the shopping-concierge
repository (`serp_tools.py`).  Strings are embedded as lists of characters
(`Str`); the Python string primitives used by the source (`lower`, `replace`,
`strip`, `split`, `join`, `in`, slicing) are modelled character by character.
Provider responses (SerpAPI) are opaque: every function that performs the
remote call takes the provider as an explicit argument returning either a
raw record list or the text of the raised exception.
-/

set_option maxRecDepth 10000
set_option linter.unusedVariables false

namespace SerpTools

abbrev Str := List Char

/-- Python `str.lower()` restricted to ASCII, which is all the source's
fixed keyword tables use. -/
def pyLower (s : Str) : Str := s.map Char.toLower

/-- The ASCII whitespace characters recognised by Python's `str.strip()`,
`str.split()` and the regex class `\s`. -/
def isSpaceCh (c : Char) : Bool :=
  c == ' ' || c == '\t' || c == '\n' || c == '\r' || c == Char.ofNat 11 || c == Char.ofNat 12

/-- Substring test, Python's `needle in haystack` on strings. -/
def pyContains (p s : Str) : Bool := decide (p <:+: s)

/-- Worker for `pyReplace`: replaces every non-overlapping occurrence of the
non-empty pattern `p`, scanning left to right.  `fuel` is an upper bound on
the length of the remaining input, so the recursion is structural. -/
def pyReplaceFuel (p r : Str) : Nat → Str → Str
  | 0, s => s
  | fuel + 1, s =>
    match s with
    | [] => []
    | c :: rest =>
      if 0 < p.length ∧ p <+: (c :: rest) then
        r ++ pyReplaceFuel p r fuel (rest.drop (p.length - 1))
      else
        c :: pyReplaceFuel p r fuel rest

/-- Python `s.replace(p, r)`: all non-overlapping occurrences, left to right.
For the empty pattern Python inserts `r` at every character boundary. -/
def pyReplace (s p r : Str) : Str :=
  if p.isEmpty then r ++ s.foldr (fun c acc => c :: (r ++ acc)) []
  else pyReplaceFuel p r s.length s

def stripLeading (s : Str) : Str := s.dropWhile isSpaceCh

def stripTrailing (s : Str) : Str := (s.reverse.dropWhile isSpaceCh).reverse

/-- Python `s.strip()` (ASCII whitespace). -/
def pyStrip (s : Str) : Str := stripTrailing (stripLeading s)

/-- Worker for `pyWords`; `acc` is the current word, reversed. -/
def pyWordsAux : Str → Str → List Str
  | acc, [] => if acc.isEmpty then [] else [acc.reverse]
  | acc, c :: rest =>
    if isSpaceCh c then
      if acc.isEmpty then pyWordsAux [] rest else acc.reverse :: pyWordsAux [] rest
    else
      pyWordsAux (c :: acc) rest

/-- Python `s.split()` with no argument: split on whitespace runs, no empty
words. -/
def pyWords (s : Str) : List Str := pyWordsAux [] s

/-- Python `' '.join(s.split())`: collapse consecutive whitespace to single
spaces and trim both ends. -/
def pyCollapse (s : Str) : Str := List.intercalate (" ".toList) (pyWords s)

/-- First-seen-order deduplication, Python `list(dict.fromkeys(l))`. -/
def pyDedupAux {α : Type} [DecidableEq α] : List α → List α → List α
  | _, [] => []
  | seen, x :: xs =>
    if x ∈ seen then pyDedupAux seen xs else x :: pyDedupAux (x :: seen) xs

def pyDedup {α : Type} [DecidableEq α] (l : List α) : List α := pyDedupAux [] l

/-- Decimal digits of a natural number, most significant first. -/
def natToStr (n : Nat) : Str := Nat.toDigits 10 n

def intToStr (i : Int) : Str :=
  if i < 0 then '-' :: natToStr i.natAbs else natToStr i.natAbs

/-- Numeric value of a non-empty run of decimal digits, Python `int(...)`. -/
def natOfDigits (ds : Str) : Nat :=
  ds.foldl (fun n c => 10 * n + (c.toNat - ('0').toNat)) 0

/-! ### optimize_search_query (serp_tools.py lines 43-84) -/

/-- The source's `filler_words` list (seven phrases). -/
def filler_words : List Str :=
  [("i need".toList), ("i want".toList), ("looking for".toList), ("find me".toList),
   ("search for".toList), ("show me".toList), ("get me".toList)]

/-- The source's `improvements` keyword-expansion table, in dict order. -/
def improvements : List (Str × Str) :=
  [(("hiking".toList), ("hiking outdoor gear".toList)),
   (("travel".toList), ("travel accessories".toList)),
   (("beach".toList), ("beach vacation".toList)),
   (("winter".toList), ("winter gear".toList)),
   (("workout".toList), ("fitness exercise".toList)),
   (("office".toList), ("office supplies".toList)),
   (("kitchen".toList), ("kitchen appliances".toList)),
   (("phone".toList), ("smartphone accessories".toList)),
   (("laptop".toList), ("laptop computer".toList)),
   (("camera".toList), ("digital camera photography".toList))]

/-- `optimize_search_query`: lower-case, strip each filler phrase (with a
`strip()` after each removal), prefix the first applicable keyword expansion,
collapse whitespace. -/
def optimize_search_query (query : Str) : Str :=
  let q0 := pyLower query
  let q1 := filler_words.foldl (fun q f => pyStrip (pyReplace q f [])) q0
  let q2 :=
    match improvements.find? (fun kv => pyContains kv.1 q1 && ! pyContains kv.2 q1) with
    | some kv => kv.2 ++ (" ".toList) ++ q1
    | none => q1
  pyCollapse q2

/-! ### extract_price_range (serp_tools.py lines 87-115)

Each of the six regexes is a sequence of: a literal, `\s*`, `\$?`, `(\d+)`.
Those token classes are pairwise disjoint at every adjacency in the six
patterns, so greedy matching without backtracking is exactly Python's
semantics; `reSearch` scans for the leftmost matching start position as
`re.search` does. -/

inductive Tok where
  | lit : Str → Tok
  | ws : Tok
  | odollar : Tok
  | digits : Tok

/-- Match a token sequence at the start of `s`, returning the captured
numeric groups.  Greedy on `\s*` and `\d+`, which is exact here (see above). -/
def matchAt : List Tok → Str → Option (List Nat)
  | [], _ => some []
  | Tok.lit p :: ts, s => if p <+: s then matchAt ts (s.drop p.length) else none
  | Tok.ws :: ts, s => matchAt ts (s.dropWhile isSpaceCh)
  | Tok.odollar :: ts, s =>
    match s with
    | c :: rest => if c = '$' then matchAt ts rest else matchAt ts (c :: rest)
    | [] => matchAt ts []
  | Tok.digits :: ts, s =>
    let ds := s.takeWhile Char.isDigit
    if ds.isEmpty then none
    else (matchAt ts (s.drop ds.length)).map (fun gs => natOfDigits ds :: gs)

/-- `re.search`: try each start position left to right. -/
def reSearch (toks : List Tok) : Str → Option (List Nat)
  | [] => matchAt toks []
  | c :: rest =>
    match matchAt toks (c :: rest) with
    | some gs => some gs
    | none => reSearch toks rest

def underToks : List Tok := [Tok.lit ("under".toList), Tok.ws, Tok.odollar, Tok.digits]

def belowToks : List Tok := [Tok.lit ("below".toList), Tok.ws, Tok.odollar, Tok.digits]

def lessThanToks : List Tok := [Tok.lit ("less than".toList), Tok.ws, Tok.odollar, Tok.digits]

def dashToks : List Tok :=
  [Tok.odollar, Tok.digits, Tok.ws, Tok.lit ("-".toList), Tok.ws, Tok.odollar, Tok.digits]

def betweenToks : List Tok :=
  [Tok.lit ("between".toList), Tok.ws, Tok.odollar, Tok.digits, Tok.ws,
   Tok.lit ("and".toList), Tok.ws, Tok.odollar, Tok.digits]

def toToks : List Tok :=
  [Tok.odollar, Tok.digits, Tok.ws, Tok.lit ("to".toList), Tok.ws, Tok.odollar, Tok.digits]

/-- The source's `price_patterns`, in order; the flag records whether the
pattern string contains `under`/`below`/`less than` (the upper-bound shapes). -/
def price_patterns : List (List Tok × Bool) :=
  [(underToks, true), (belowToks, true), (lessThanToks, true),
   (dashToks, false), (betweenToks, false), (toToks, false)]

/-- First pattern with a match decides the result; by construction the
upper-bound patterns capture one group and the range patterns two, so the
`head?` projections are always populated on a match. -/
def firstPat : List (List Tok × Bool) → Str → Option Nat × Option Nat
  | [], _ => (none, none)
  | (toks, isUpper) :: ps, q =>
    match reSearch toks q with
    | some gs => if isUpper then (none, gs.head?) else (gs.head?, (gs.drop 1).head?)
    | none => firstPat ps q

/-- `extract_price_range`: scan the six price regexes in priority order over
the lower-cased query. -/
def extract_price_range (query : Str) : Option Nat × Option Nat :=
  firstPat price_patterns (pyLower query)

/-! ### generate_smart_packing_list (serp_tools.py lines 325-378) -/

def base_items : List Str :=
  [("travel backpack".toList), ("phone charger".toList), ("toiletry bag".toList),
   ("travel adapter".toList)]

def longDurWords : List Str := [("week".toList), ("7 day".toList), ("long trip".toList)]

def shortDurWords : List Str :=
  [("weekend".toList), ("2 day".toList), ("3 day".toList), ("short trip".toList)]

def longDurItems : List Str :=
  [("laundry detergent pods".toList), ("extra underwear".toList),
   ("medication organizer".toList)]

def shortDurItems : List Str :=
  [("travel size toiletries".toList), ("compact packing cubes".toList)]

/-- The source's `climate_items` table in dict order.  The source checks both
`climate` and `climate.replace('_', ' ')`; no key contains an underscore so
the two checks coincide. -/
def climate_items : List (Str × List Str) :=
  [(("tropical".toList),
    [("sunscreen SPF 50".toList), ("insect repellent".toList),
     ("lightweight clothing".toList), ("sandals".toList), ("sun hat".toList)]),
   (("beach".toList),
    [("swimsuit".toList), ("beach towel".toList), ("waterproof phone case".toList),
     ("flip flops".toList), ("beach bag".toList)]),
   (("cold".toList),
    [("thermal underwear".toList), ("winter jacket".toList), ("warm gloves".toList),
     ("beanie".toList), ("wool socks".toList)]),
   (("mountain".toList),
    [("hiking boots".toList), ("rain jacket".toList), ("first aid kit".toList),
     ("headlamp".toList), ("trekking poles".toList)]),
   (("city".toList),
    [("comfortable walking shoes".toList), ("day pack".toList),
     ("portable charger".toList), ("city guidebook".toList)]),
   (("business".toList),
    [("business attire".toList), ("laptop bag".toList), ("dress shoes".toList),
     ("iron travel size".toList), ("business cards".toList)]),
   (("camping".toList),
    [("sleeping bag".toList), ("camping tent".toList), ("camping stove".toList),
     ("water purification tablets".toList), ("multi-tool".toList)])]

/-- The source's `activities` table in dict order. -/
def activities_items : List (Str × List Str) :=
  [(("photography".toList),
    [("camera equipment".toList), ("extra batteries".toList), ("memory cards".toList),
     ("lens cleaning kit".toList)]),
   (("fitness".toList),
    [("workout clothes".toList), ("running shoes".toList), ("fitness tracker".toList),
     ("protein bars".toList)]),
   (("cooking".toList),
    [("portable cooking set".toList), ("spices travel kit".toList), ("cooler bag".toList),
     ("cutting board".toList)]),
   (("reading".toList),
    [("e-reader".toList), ("reading light".toList), ("book stand".toList),
     ("blue light glasses".toList)])]

/-- Climate table scan: first matching keyword's items, stop on first match. -/
def climateScan : List (Str × List Str) → Str → List Str
  | [], _ => []
  | kv :: rest, ql => if pyContains kv.1 ql then kv.2 else climateScan rest ql

/-- Activity table scan: all matching keywords contribute, in table order. -/
def activityConcat (table : List (Str × List Str)) (ql : Str) : List Str :=
  List.flatten ((table.filter (fun kv => pyContains kv.1 ql)).map (fun kv => kv.2))

/-- `generate_smart_packing_list`: base items, at most one duration branch
(`if`/`elif`), one climate category, all matching activities, deduplicated
keeping first-seen order. -/
def generate_smart_packing_list (question : Str) : List Str :=
  let ql := pyLower question
  let base :=
    if longDurWords.any (fun w => pyContains w ql) then base_items ++ longDurItems
    else if shortDurWords.any (fun w => pyContains w ql) then base_items ++ shortDurItems
    else base_items
  pyDedup (base ++ climateScan climate_items ql ++ activityConcat activities_items ql)

/-! ### search_amazon_products (serp_tools.py lines 118-216)

Raw provider records are heterogeneous dicts; the fields the source reads are
modelled below.  Python floats are embedded as exact rationals.  The body of
`search_amazon_products` sits in one `try`, so the whole pipeline is an
`Except Str`: a provider/transport exception, or the `ValueError` that
`float(...)` raises on a degenerate price group, short-circuits to the
`except` branch. -/

/-- The `rating` field of a raw record as the source reads it:
`absent` covers a missing key and every falsy value (`None`, `0`, `""`),
`val q` a truthy value `float()` converts to `q`, and `bad` a truthy value
`float()` rejects (handled by the source's `except`, giving rating 0). -/
inductive RatingField where
  | absent : RatingField
  | val : ℚ → RatingField
  | bad : RatingField
deriving DecidableEq

/-- A parsed price value: the default string `"N/A"`, a number, or a raw
string kept as-is. -/
inductive PVal where
  | na : PVal
  | num : ℚ → PVal
  | strv : Str → PVal
deriving DecidableEq

/-- The `price` field of a raw record: absent (or a type the source ignores),
a dict (carrying its `value` entry, default `"N/A"`), a string, or a number. -/
inductive PriceRaw where
  | absent : PriceRaw
  | pdict : PVal → PriceRaw
  | pstr : Str → PriceRaw
  | pnum : ℚ → PriceRaw
deriving DecidableEq

structure RawProduct where
  asin : Option Str
  title : Option Str
  link : Option Str
  price : PriceRaw
  rating : RatingField
  reviews : Option Int
  thumbnail : Option Str
  delivery : Option Str
  prime : Option Bool
  sponsored : Option Bool
deriving DecidableEq

/-- A retained product record (`product_info` in the source). -/
structure Product where
  asin : Str
  title : Str
  link : Str
  price : PVal
  rating : ℚ
  reviews : Int
  thumbnail : Str
  delivery : Str
  prime : Bool
  sponsored : Bool
deriving DecidableEq

/-- Lines 161-167: rating as float, 0 when missing, falsy or unparseable. -/
def parseRating : RatingField → ℚ
  | RatingField.val q => q
  | _ => 0

/-- The group of the price regex `\$?([\d,]+\.?\d*)` matched at the start of
`s`, or `none`.  The character classes at every adjacency are disjoint, so
greedy matching is exact. -/
def priceGroupAt (s : Str) : Option Str :=
  let s1 := match s with
    | c :: r => if c = '$' then r else c :: r
    | [] => []
  let dc := s1.takeWhile (fun c => c.isDigit || c == ',')
  if dc.isEmpty then none
  else
    match s1.drop dc.length with
    | c :: r2 => if c = '.' then some (dc ++ '.' :: r2.takeWhile Char.isDigit) else some dc
    | [] => some dc

/-- `re.search` for the price regex: leftmost matching start position. -/
def priceSearch : Str → Option Str
  | [] => none
  | c :: rest =>
    match priceGroupAt (c :: rest) with
    | some g => some g
    | none => priceSearch rest

/-- Python `float(t)` on a comma-stripped price group.  By construction `t`
consists of digits optionally followed by `'.'` and digits; conversion fails
exactly when `t` has no digit at all (`""` or `"."`). -/
def ratOfFixed (t : Str) : Option ℚ :=
  let intPart := t.takeWhile Char.isDigit
  match t.drop intPart.length with
  | [] => if intPart.isEmpty then none else some (mkRat (natOfDigits intPart) 1)
  | c :: frac =>
    if c = '.' then
      if intPart.isEmpty && frac.isEmpty then none
      else some (mkRat (natOfDigits intPart * 10 ^ frac.length + natOfDigits frac) (10 ^ frac.length))
    else none

/-- Lines 173-186: robust price extraction.  The error carries the text of
the `ValueError` that `float('')` or `float('.')` raises. -/
def parsePrice : PriceRaw → Except Str PVal
  | PriceRaw.absent => Except.ok PVal.na
  | PriceRaw.pdict v => Except.ok v
  | PriceRaw.pnum q => Except.ok (PVal.num q)
  | PriceRaw.pstr t =>
    match priceSearch t with
    | none => Except.ok (PVal.strv t)
    | some g =>
      let cleaned := g.filter (fun c => c != ',')
      match ratOfFixed cleaned with
      | some q => Except.ok (PVal.num q)
      | none =>
        Except.error (("could not convert string to float: '".toList) ++ cleaned ++ ("'".toList))

/-- Outcome of processing one raw record.  `skipRating` is the source's
`continue` (which bypasses the end-of-loop break check), `skipAsin` a record
that fell through without being appended. -/
inductive RecStep where
  | skipRating : RecStep
  | skipAsin : RecStep
  | keep : Product → RecStep

/-- Lines 160-203: one raw record to a retained product, a skip, or a raised
`ValueError`. -/
def processRecord (minRating : ℚ) (r : RawProduct) : Except Str RecStep :=
  let rating := parseRating r.rating
  if 0 < rating ∧ rating < minRating then Except.ok RecStep.skipRating
  else
    match parsePrice r.price with
    | Except.error e => Except.error e
    | Except.ok pv =>
      let asin := r.asin.getD []
      if asin.isEmpty then Except.ok RecStep.skipAsin
      else
        Except.ok (RecStep.keep
          { asin := asin, title := r.title.getD [], link := r.link.getD [],
            price := pv, rating := rating, reviews := r.reviews.getD 0,
            thumbnail := r.thumbnail.getD [], delivery := r.delivery.getD [],
            prime := r.prime.getD false, sponsored := r.sponsored.getD false })

/-- The collection loop (lines 160-207): append qualifying records in
provider order, and after any non-`continue` iteration stop once
`max_results` records are gathered. -/
def collectLoop (minRating : ℚ) (maxResults : Nat) (acc : List Product) :
    List RawProduct → Except Str (List Product)
  | [] => Except.ok acc
  | r :: rs =>
    match processRecord minRating r with
    | Except.error e => Except.error e
    | Except.ok RecStep.skipRating => collectLoop minRating maxResults acc rs
    | Except.ok RecStep.skipAsin =>
      if maxResults ≤ acc.length then Except.ok acc
      else collectLoop minRating maxResults acc rs
    | Except.ok (RecStep.keep p) =>
      if maxResults ≤ (acc ++ [p]).length then Except.ok (acc ++ [p])
      else collectLoop minRating maxResults (acc ++ [p]) rs

/-- The variable parts of the SerpAPI `params` dict (line 140-151); engine,
domain and the API key are provider configuration and stay opaque. -/
structure SearchParams where
  k : Str
  low_price : Option Nat
  high_price : Option Nat

/-- The opaque provider: the `GoogleSearch(params).get_dict()` call together
with `get_serpapi_key()`, returning the `organic_results` list or the text of
whatever exception was raised. -/
def Provider : Type := SearchParams → Except Str (List RawProduct)

/-- Python truthiness of the detected price bounds (lines 148-151): `None`
and `0` are both falsy, so a bound of `0` is not forwarded. -/
def truthyNat : Option Nat → Option Nat
  | some (n + 1) => some (n + 1)
  | _ => none

/-- Everything of `search_amazon_products` up to (not including) the sort:
query optimization, price-range detection, the provider call and the
filtering collection loop. -/
def collectStage (provider : Provider) (query : Str) (maxResults : Nat) (minRating : ℚ) :
    Except Str (List Product) :=
  let pr := extract_price_range query
  match provider
      { k := optimize_search_query query,
        low_price := truthyNat pr.1, high_price := truthyNat pr.2 } with
  | Except.error e => Except.error e
  | Except.ok raws => collectLoop minRating maxResults [] raws

/-- Sort key, the Python tuple `(rating, reviews)`. -/
def prodKey (p : Product) : ℚ × Int := (p.rating, p.reviews)

/-- `a` may precede `b` in the descending sort: `(b.rating, b.reviews)` is
lexicographically at most `(a.rating, a.reviews)`. -/
def keyGe (a b : Product) : Prop :=
  b.rating < a.rating ∨ (b.rating = a.rating ∧ b.reviews ≤ a.reviews)

instance : DecidableRel keyGe := fun a b =>
  inferInstanceAs (Decidable (b.rating < a.rating ∨ (b.rating = a.rating ∧ b.reviews ≤ a.reviews)))

/-- Line 210, `products.sort(key=lambda x: (x["rating"], x["reviews"]),
reverse=True)`: a stable sort in non-increasing lexicographic key order.
Python's sort is stable; insertion sort with the total preorder `keyGe`
(which keeps earlier elements in front of key-equal later ones) computes the
same list, since stable sorting is uniquely determined by the key order. -/
def pySortDesc (l : List Product) : List Product := List.insertionSort keyGe l

/-- The dict returned by `search_amazon_products`: on success `error` is
absent; on failure `products` is empty and `total_results` 0. -/
structure SearchOutcome where
  success : Bool
  products : List Product
  total_results : Nat
  error : Option Str
deriving DecidableEq

def search_amazon_products (provider : Provider) (query : Str) (maxResults : Nat)
    (minRating : ℚ) : SearchOutcome :=
  match collectStage provider query maxResults minRating with
  | Except.ok ps =>
    { success := true, products := pySortDesc ps,
      total_results := (pySortDesc ps).length, error := none }
  | Except.error e =>
    { success := false, products := [], total_results := 0, error := some e }

/-! ### search_products (serp_tools.py lines 219-322) -/

/-- Round half to even, the tie rule of IEEE-754 formatting. -/
def rhe (q : ℚ) : Int :=
  if q - (q.floor : ℚ) = mkRat 1 2 then (if q.floor % 2 = 0 then q.floor else q.floor + 1)
  else (q + mkRat 1 2).floor

def padZeros (k : Nat) (s : Str) : Str := List.replicate (k - s.length) '0' ++ s

/-- Python `f"{p:.2f}"`.  The source formats an IEEE double; prices are
embedded as exact rationals, rounded here with the same half-even tie rule. -/
def fmt2 (q : ℚ) : Str :=
  let m := rhe (q * 100)
  (if m < 0 then ("-".toList) else []) ++ natToStr (m.natAbs / 100) ++
    '.' :: padZeros 2 (natToStr (m.natAbs % 100))

/-- Python `str(x)` for a float `x`, for rationals with a finite decimal
expansion (the only values a float can hold); other denominators fall back to
a fraction rendering, unreachable from float-valued ratings. -/
def ratToStr (q : ℚ) : Str :=
  if q.den = 1 then intToStr q.num ++ (".0".toList)
  else
    match (List.range 60).find? (fun k => q.den ∣ 10 ^ (k + 1)) with
    | some k =>
      let scaled := q.num.natAbs * (10 ^ (k + 1) / q.den)
      (if q.num < 0 then ("-".toList) else []) ++ natToStr (scaled / 10 ^ (k + 1)) ++
        '.' :: padZeros (k + 1) (natToStr (scaled % 10 ^ (k + 1)))
    | none => intToStr q.num ++ '/' :: natToStr q.den

/-- Line 283-286 and 438-442: `f"${p:.2f}"` for numeric prices, `str(...)`
otherwise. -/
def formatPrice : PVal → Str
  | PVal.num q => '$' :: fmt2 q
  | PVal.na => ("N/A".toList)
  | PVal.strv t => t

/-- The result dict of `search_products`. -/
structure SPResult where
  answer : Str
  asins : List Str
  products : List Product
deriving DecidableEq

def qualityWords : List Str :=
  [("best".toList), ("top".toList), ("good".toList), ("recommend".toList)]

/-- Lines 238-249: the ordered list of query variants. -/
def search_attempts (question : Str) : List Str :=
  let ql := pyLower question
  let base := [question, optimize_search_query question]
  let base2 :=
    if qualityWords.any (fun w => pyContains w ql) then
      base ++ [("best rated ".toList) ++ optimize_search_query question]
    else base
  if pyContains ("cheap".toList) ql || pyContains ("budget".toList) ql then
    base2 ++ [("budget ".toList) ++ optimize_search_query question]
  else base2

/-- Lines 254-266: try each variant, stop at the first whose search succeeds
with a non-empty product list; otherwise remember
`search_results.get('error', 'No products found')` of the failed attempt. -/
def tryAttempts (provider : Provider) : List Str → Option Str → List Product × Option Str
  | [], lastError => ([], lastError)
  | q :: qs, lastError =>
    let r := search_amazon_products provider q 12 (mkRat 7 2)
    if r.success && ! r.products.isEmpty then (r.products, lastError)
    else tryAttempts provider qs (some (r.error.getD ("No products found".toList)))

/-- Python `f"{x}"` for `x : Optional[str]`: `None` prints as `None`. -/
def optToStr : Option Str → Str
  | some s => s
  | none => ("None".toList)

/-- One numbered product section of the success answer (lines 281-305). -/
def productSection (i : Nat) (p : Product) : Str :=
  let priceStr := formatPrice p.price
  ("**".toList) ++ natToStr i ++ (". ".toList) ++ p.title.take 80 ++
    (if 80 < p.title.length then ("...".toList) else []) ++ ("**\n".toList) ++
    ("   💰 **Price**: ".toList) ++ priceStr ++
    (if 0 < p.rating then
      (" | ".toList) ++ List.replicate p.rating.floor.toNat '⭐' ++
        ' ' :: ratToStr p.rating ++ ("/5".toList) ++
        (if p.reviews ≠ 0 then
          (" (".toList) ++ intToStr p.reviews ++ (" reviews)".toList)
        else [])
    else []) ++
    (if p.prime then (" | 🚚 **Prime Eligible**".toList) else []) ++
    ("\n   🔗 **ASIN**: `".toList) ++ p.asin ++ ("`".toList) ++
    ("\n   🛒 **Link**: https://www.amazon.com/dp/".toList) ++ p.asin ++
    ("\n   📦 **Cart Data**: ASIN: ".toList) ++ p.asin ++ (", Price: ".toList) ++ priceStr ++
    ("\n\n".toList)

def productSections : Nat → List Product → Str
  | _, [] => []
  | i, p :: ps => productSection i p ++ productSections (i + 1) ps

def answerFooter : Str :=
  ("🎯 **Ready to Shop?**\n".toList) ++
    ("• Tell me which items you'd like to add to your cart (e.g., 'Add item 1 and 3')\n".toList) ++
    ("• Say 'add all to cart' to add all products\n".toList) ++
    ("• Or ask me to find more specific products!\n\n".toList) ++
    ("💡 **Pro Tip**: I can help you add items to your cart and complete your purchase seamlessly!".toList)

/-- Lines 279-312: the formatted success answer (top 8 products shown). -/
def buildSearchAnswer (question : Str) (products : List Product) : Str :=
  ("🛍️ **Found ".toList) ++ natToStr products.length ++
    (" high-quality products for '".toList) ++ question ++ ("'**\n\n".toList) ++
    productSections 1 (products.take 8) ++ answerFooter

/-- The failure answer of lines 268-273 (returned without `strip()`). -/
def noProductsAnswer (question : Str) (lastError : Option Str) : Str :=
  ("No products found matching '".toList) ++ question ++
    ("'. Try being more specific or using different keywords. Error: ".toList) ++
    optToStr lastError

/-- `search_products`: multi-variant retry search.  The trailing `except`
of the source guards pure formatting code that cannot raise and is not
modelled. -/
def search_products (provider : Provider) (user_id question : Str) : SPResult :=
  let res := tryAttempts provider (search_attempts question) none
  if res.1.isEmpty then
    { answer := noProductsAnswer question res.2, asins := [], products := [] }
  else
    { answer := pyStrip (buildSearchAnswer question res.1),
      asins := res.1.filterMap (fun p => if p.asin.isEmpty then none else some p.asin),
      products := res.1 }

/-! ### generate_packing_list (serp_tools.py lines 381-483) -/

/-- Python `str.title()` restricted to ASCII letters. -/
def pyTitleAux : Bool → Str → Str
  | _, [] => []
  | prevAlpha, c :: rest =>
    (if c.isAlpha then (if prevAlpha then c.toLower else c.toUpper) else c) ::
      pyTitleAux c.isAlpha rest

def pyTitle (s : Str) : Str := pyTitleAux false s

/-- Lines 417-421: the three query variants tried for one packing item. -/
def itemQueries (item : Str) : List Str :=
  [("travel ".toList) ++ item, ("best ".toList) ++ item, item]

/-- Lines 423-428: first variant with a successful non-empty search wins,
keeping the top 3 products; otherwise `[]`. -/
def searchFirst (provider : Provider) : List Str → List Product
  | [] => []
  | q :: qs =>
    let r := search_amazon_products provider q 4 (mkRat 7 2)
    if r.success && ! r.products.isEmpty then r.products.take 3
    else searchFirst provider qs

def searchItemProducts (provider : Provider) (item : Str) : List Product :=
  searchFirst provider (itemQueries item)

/-- An entry of the `results` list: a packing item with its products. -/
structure PackItem where
  item : Str
  products : List Product
deriving DecidableEq

/-- The result dict of `generate_packing_list`; `asins` is the
item-to-ASIN-list dict in insertion order. -/
structure PLResult where
  answer : Str
  asins : List (Str × List Str)
  items : List PackItem
deriving DecidableEq

/-- One mini product line of a packing-item section (lines 437-457). -/
def miniSection (i : Nat) (p : Product) : Str :=
  ("   ".toList) ++ natToStr i ++ (". **".toList) ++
    (if 50 < p.title.length then p.title.take 50 ++ ("...".toList) else p.title) ++
    ("**\n".toList) ++ ("      💰 ".toList) ++ formatPrice p.price ++
    (if 0 < p.rating then
      (" | ".toList) ++ List.replicate p.rating.floor.toNat '⭐' ++
        ' ' :: ratToStr p.rating ++ ("/5".toList)
    else []) ++
    (if p.prime then (" | 🚚 Prime".toList) else []) ++
    ("\n      🛒 ASIN: ".toList) ++ p.asin ++ ("\n".toList)

def miniSections : Nat → List Product → Str
  | _, [] => []
  | i, p :: ps => miniSection i p ++ miniSections (i + 1) ps

/-- The section appended for an item with products (lines 434-459). -/
def itemSection (item : Str) (products : List Product) : Str :=
  ("📦 **".toList) ++ pyTitle item ++ ("**\n".toList) ++
    ("   🏆 **Top Recommendations:**\n".toList) ++ miniSections 1 products ++ ("\n".toList)

/-- The section appended for an item with no products (lines 462-464). -/
def itemFailSection (item : Str) : Str :=
  ("📦 **".toList) ++ pyTitle item ++
    ("**\n   ❌ No specific products found - search manually\n\n".toList)

/-- The loop state of `generate_packing_list`: the growing answer, the
`asins_dict`, the `results` list and the `failed_searches` list. -/
structure PLState where
  answer : Str
  asins : List (Str × List Str)
  results : List PackItem
  failed : List Str

/-- One iteration of the per-item loop (lines 413-464). -/
def plStep (provider : Provider) (st : PLState) (item : Str) : PLState :=
  let products := searchItemProducts provider item
  if products.isEmpty then
    { st with failed := st.failed ++ [item], answer := st.answer ++ itemFailSection item }
  else
    { st with
      answer := st.answer ++ itemSection item products,
      asins := st.asins ++
        [(item, products.filterMap (fun p => if p.asin.isEmpty then none else some p.asin))],
      results := st.results ++ [{ item := item, products := products }] }

/-- The aggregate failure answer of line 473. -/
def packingFailAnswer (question : Str) : Str :=
  ("Unable to find specific product recommendations for your packing list: ".toList) ++
    question ++ (". Try searching for individual items.".toList)

/-- `generate_packing_list`: derive the packing list, search per item
(first 10 items), and format; if no item found products the whole answer is
replaced by the aggregate failure message. -/
def generate_packing_list (provider : Provider) (user_id question : Str) : PLResult :=
  let priority := (generate_smart_packing_list question).take 10
  let st := priority.foldl (plStep provider)
    { answer := ("🎒 **Smart Packing List for: ".toList) ++ question ++ ("**\n\n".toList),
      asins := [], results := [], failed := [] }
  let answer :=
    if ! st.results.isEmpty then
      st.answer ++ ("✅ **Found products for ".toList) ++ natToStr st.results.length ++
        (" items**\n".toList) ++
        (if ! st.failed.isEmpty then
          ("⚠️ **Manual search needed for:** ".toList) ++
            List.intercalate (", ".toList) st.failed ++ ("\n".toList)
        else []) ++
        ("\n💡 **Tip:** Ask me to add any items to your cart!".toList)
    else packingFailAnswer question
  { answer := pyStrip answer, asins := st.asins, items := st.results }

/-! ### Concrete fixtures for witnesses and counterexamples -/

deriving instance DecidableEq for Except

/-- A well-formed provider record: rating 4.0, 10 reviews. -/
def witRawGood : RawProduct :=
  { asin := some ("B001".toList), title := some ("Alpha charger".toList), link := none,
    price := PriceRaw.pnum (mkRat 1999 100), rating := RatingField.val 4,
    reviews := some 10, thumbnail := none, delivery := none, prime := some true,
    sponsored := none }

/-- A second well-formed record: rating 4.5, 3 reviews. -/
def witRawGood2 : RawProduct :=
  { witRawGood with asin := some ("B002".toList), rating := RatingField.val (mkRat 9 2), reviews := some 3 }

/-- A malformed record carrying the out-of-range rating `-1`, which the
source's `rating > 0 and rating < min_rating` filter does not exclude. -/
def witRawNeg : RawProduct :=
  { witRawGood with asin := some ("B003".toList), rating := RatingField.val (-1) }

def witProvErr : Provider := fun _ => Except.error ("boom".toList)

def witProvOne : Provider := fun _ => Except.ok [witRawGood]

def witProvTwo : Provider := fun _ => Except.ok [witRawGood, witRawGood2]

def witProvNeg : Provider := fun _ => Except.ok [witRawNeg]

/-- The retained product `witRawGood` maps to. -/
def witProdGood : Product :=
  { asin := ("B001".toList), title := ("Alpha charger".toList), link := [],
    price := PVal.num (mkRat 1999 100), rating := 4, reviews := 10, thumbnail := [],
    delivery := [], prime := true, sponsored := false }

/-- The retained product `witRawGood2` maps to. -/
def witProdGood2 : Product :=
  { witProdGood with asin := ("B002".toList), rating := mkRat 9 2, reviews := 3 }

/-- An attempt of `search_products` succeeds: the capped-at-12 search is
successful and returns at least one qualifying product (line 260). -/
abbrev attemptOk (provider : Provider) (a : Str) : Prop :=
  (search_amazon_products provider a 12 (mkRat 7 2)).success = true
  ∧ (search_amazon_products provider a 12 (mkRat 7 2)).products ≠ []

/-- The error recorded after a failed attempt,
`search_results.get('error', 'No products found')` (line 265). -/
def attErr (provider : Provider) (a : Str) : Str :=
  (search_amazon_products provider a 12 (mkRat 7 2)).error.getD ("No products found".toList)

instance : IsTrans Product keyGe := by
  constructor
  intro a b c hab hbc
  rcases hab with h1 | ⟨h1, h1r⟩
  · rcases hbc with h2 | ⟨h2, h2r⟩
    · exact Or.inl (lt_trans h2 h1)
    · exact Or.inl (by rw [h2]; exact h1)
  · rcases hbc with h2 | ⟨h2, h2r⟩
    · exact Or.inl (h1 ▸ h2)
    · exact Or.inr ⟨h2.trans h1, le_trans h2r h1r⟩

instance : IsTotal Product keyGe := by
  constructor
  intro a b
  rcases lt_trichotomy a.rating b.rating with h | h | h
  · exact Or.inr (Or.inl h)
  · rcases le_total a.reviews b.reviews with hr | hr
    · exact Or.inr (Or.inr ⟨h, hr⟩)
    · exact Or.inl (Or.inr ⟨h.symm, hr⟩)
  · exact Or.inl (Or.inl h)

/-! ## Theorems -/

theorem mem_pyDedupAux {α : Type} [DecidableEq α] (l : List α) (seen : List α) (x : α) :
    x ∈ pyDedupAux seen l ↔ x ∈ l ∧ x ∉ seen := by
  induction l generalizing seen with
  | nil => simp [pyDedupAux]
  | cons y ys ih =>
    by_cases hy : y ∈ seen
    · simp only [pyDedupAux, if_pos hy, ih, List.mem_cons]
      constructor
      · exact fun ⟨h1, h2⟩ => ⟨Or.inr h1, h2⟩
      · rintro ⟨h1 | h1, h2⟩
        · exact absurd (h1 ▸ hy) h2
        · exact ⟨h1, h2⟩
    · simp only [pyDedupAux, if_neg hy, List.mem_cons, ih, not_or]
      constructor
      · rintro (rfl | ⟨h1, h2, h3⟩)
        · exact ⟨Or.inl rfl, hy⟩
        · exact ⟨Or.inr h1, h3⟩
      · rintro ⟨h1 | h1, h2⟩
        · exact Or.inl h1
        · by_cases hxy : x = y
          · exact Or.inl hxy
          · exact Or.inr ⟨h1, hxy, h2⟩

theorem mem_pyDedup {α : Type} [DecidableEq α] (l : List α) (x : α) :
    x ∈ pyDedup l ↔ x ∈ l := by
  simp [pyDedup, mem_pyDedupAux]

theorem mem_climateScan (table : List (Str × List Str)) (ql : Str) (x : Str)
    (h : x ∈ climateScan table ql) : ∃ kv ∈ table, x ∈ kv.2 := by
  induction table with
  | nil => simp [climateScan] at h
  | cons kv rest ih =>
    by_cases hc : pyContains kv.1 ql = true
    · refine ⟨kv, List.mem_cons_self kv rest, ?_⟩
      simpa [climateScan, hc] using h
    · simp only [climateScan, if_neg hc] at h
      obtain ⟨kv2, hm, hx⟩ := ih h
      exact ⟨kv2, List.mem_cons_of_mem kv hm, hx⟩

theorem mem_activityConcat (table : List (Str × List Str)) (ql : Str) (x : Str)
    (h : x ∈ activityConcat table ql) : ∃ kv ∈ table, x ∈ kv.2 := by
  simp only [activityConcat, List.mem_flatten, List.mem_map] at h
  obtain ⟨l, ⟨kv, hkv, rfl⟩, hx⟩ := h
  exact ⟨kv, (List.mem_filter.mp hkv).1, hx⟩

theorem mem_generate_smart_packing_list (question : Str) (x : Str) :
    x ∈ generate_smart_packing_list question ↔
      x ∈ (if longDurWords.any (fun w => pyContains w (pyLower question)) then
            base_items ++ longDurItems
          else if shortDurWords.any (fun w => pyContains w (pyLower question)) then
            base_items ++ shortDurItems
          else base_items)
        ∨ x ∈ climateScan climate_items (pyLower question)
        ∨ x ∈ activityConcat activities_items (pyLower question) := by
  simp [generate_smart_packing_list, mem_pyDedup, List.mem_append, or_assoc]

/-- Claim C5: `extract_price_range` returns `(None, 50)` on `"under $50"`,
`(20, 100)` on `"$20-$100"` and `(None, None)` on `"nice shoes"`; generally,
for each of the six patterns in priority order — `under`, `below`,
`less than`, `$A-$B`, `between $A and $B`, `$A to $B` — if every
higher-priority pattern fails and that pattern matches, an upper-bound
pattern yields `(None, N)` and a range pattern yields `(A, B)` as written,
and when no pattern matches the result is `(None, None)`: only the first
matching pattern in priority order is used. -/
theorem claim_C5 :
    extract_price_range ("under $50".toList) = (none, some 50)
    ∧ extract_price_range ("$20-$100".toList) = (some 20, some 100)
    ∧ extract_price_range ("nice shoes".toList) = (none, none)
    ∧ (∀ q n rest, reSearch underToks (pyLower q) = some (n :: rest) →
        extract_price_range q = (none, some n))
    ∧ (∀ q n rest, reSearch underToks (pyLower q) = none →
        reSearch belowToks (pyLower q) = some (n :: rest) →
        extract_price_range q = (none, some n))
    ∧ (∀ q n rest, reSearch underToks (pyLower q) = none →
        reSearch belowToks (pyLower q) = none →
        reSearch lessThanToks (pyLower q) = some (n :: rest) →
        extract_price_range q = (none, some n))
    ∧ (∀ q a b rest, reSearch underToks (pyLower q) = none →
        reSearch belowToks (pyLower q) = none →
        reSearch lessThanToks (pyLower q) = none →
        reSearch dashToks (pyLower q) = some (a :: b :: rest) →
        extract_price_range q = (some a, some b))
    ∧ (∀ q a b rest, reSearch underToks (pyLower q) = none →
        reSearch belowToks (pyLower q) = none →
        reSearch lessThanToks (pyLower q) = none →
        reSearch dashToks (pyLower q) = none →
        reSearch betweenToks (pyLower q) = some (a :: b :: rest) →
        extract_price_range q = (some a, some b))
    ∧ (∀ q a b rest, reSearch underToks (pyLower q) = none →
        reSearch belowToks (pyLower q) = none →
        reSearch lessThanToks (pyLower q) = none →
        reSearch dashToks (pyLower q) = none →
        reSearch betweenToks (pyLower q) = none →
        reSearch toToks (pyLower q) = some (a :: b :: rest) →
        extract_price_range q = (some a, some b))
    ∧ (∀ q, (∀ pat ∈ price_patterns, reSearch pat.1 (pyLower q) = none) →
        extract_price_range q = (none, none)) := by
  refine ⟨by decide, by decide, by decide, ?_, ?_, ?_, ?_, ?_, ?_, ?_⟩
  · intro q n rest h
    simp [extract_price_range, price_patterns, firstPat, h]
  · intro q n rest h1 h2
    simp [extract_price_range, price_patterns, firstPat, h1, h2]
  · intro q n rest h1 h2 h3
    simp [extract_price_range, price_patterns, firstPat, h1, h2, h3]
  · intro q a b rest h1 h2 h3 h4
    simp [extract_price_range, price_patterns, firstPat, h1, h2, h3, h4]
  · intro q a b rest h1 h2 h3 h4 h5
    simp [extract_price_range, price_patterns, firstPat, h1, h2, h3, h4, h5]
  · intro q a b rest h1 h2 h3 h4 h5 h6
    simp [extract_price_range, price_patterns, firstPat, h1, h2, h3, h4, h5, h6]
  · intro q h
    have h1 := h (underToks, true) (by simp [price_patterns])
    have h2 := h (belowToks, true) (by simp [price_patterns])
    have h3 := h (lessThanToks, true) (by simp [price_patterns])
    have h4 := h (dashToks, false) (by simp [price_patterns])
    have h5 := h (betweenToks, false) (by simp [price_patterns])
    have h6 := h (toToks, false) (by simp [price_patterns])
    simp only at h1 h2 h3 h4 h5 h6
    simp [extract_price_range, price_patterns, firstPat, h1, h2, h3, h4, h5, h6]

theorem claim_C5_witness :
    extract_price_range ("cap under $25".toList) = (none, some 25)
    ∧ extract_price_range ("cap below $30".toList) = (none, some 30)
    ∧ extract_price_range ("cap less than $40".toList) = (none, some 40)
    ∧ extract_price_range ("cap $5-$9".toList) = (some 5, some 9)
    ∧ extract_price_range ("between $10 and $30".toList) = (some 10, some 30)
    ∧ extract_price_range ("cap $7 to $20".toList) = (some 7, some 20)
    ∧ extract_price_range ("plain cap".toList) = (none, none) := by
  obtain ⟨-, -, -, h4, h5, h6, h7, h8, h9, h10⟩ := claim_C5
  refine ⟨h4 _ 25 [] (by decide), h5 _ 30 [] (by decide) (by decide),
    h6 _ 40 [] (by decide) (by decide) (by decide),
    h7 _ 5 9 [] (by decide) (by decide) (by decide) (by decide),
    h8 _ 10 30 [] (by decide) (by decide) (by decide) (by decide) (by decide),
    h9 _ 7 20 [] (by decide) (by decide) (by decide) (by decide) (by decide) (by decide),
    h10 _ (by decide)⟩

/-- Claim C8: on `"beach vacation for a week"` the generated packing list is
exactly the base items followed by the week-duration items and the beach
climate items (only the beach category applies), with no duplicates and
first-seen order preserved. -/
theorem claim_C8 :
    generate_smart_packing_list ("beach vacation for a week".toList) =
      [("travel backpack".toList), ("phone charger".toList), ("toiletry bag".toList),
       ("travel adapter".toList), ("laundry detergent pods".toList),
       ("extra underwear".toList), ("medication organizer".toList), ("swimsuit".toList),
       ("beach towel".toList), ("waterproof phone case".toList), ("flip flops".toList),
       ("beach bag".toList)]
    ∧ (generate_smart_packing_list ("beach vacation for a week".toList)).Nodup
    ∧ (∀ x ∈ longDurItems, x ∈ generate_smart_packing_list ("beach vacation for a week".toList))
    ∧ (∀ x ∈ [("swimsuit".toList), ("beach towel".toList), ("waterproof phone case".toList),
        ("flip flops".toList), ("beach bag".toList)],
        x ∈ generate_smart_packing_list ("beach vacation for a week".toList)) := by
  refine ⟨by decide, by decide, by decide, by decide⟩

/-- Claim C7 counterexample: `"weekend"` contains the short-trip keyword
`"weekend"` and neither `"7 day"` nor `"long trip"`, yet the short-trip items
are not appended and the long-trip items are — because `"weekend"` contains
`"week"`, which the `if` branch tests first. -/
theorem claim_C7_counterexample :
    (∃ w ∈ shortDurWords, w <:+: pyLower ("weekend".toList))
    ∧ (∀ w ∈ [("7 day".toList), ("long trip".toList)], ¬ w <:+: pyLower ("weekend".toList))
    ∧ ("travel size toiletries".toList) ∉ generate_smart_packing_list ("weekend".toList)
    ∧ ("laundry detergent pods".toList) ∈ generate_smart_packing_list ("weekend".toList) := by
  refine ⟨by decide, by decide, by decide, by decide⟩

/-- Claim C7, amended: at most one duration branch ever applies, and the
short branch is selected exactly when a short-trip keyword occurs while none
of `"week"`, `"7 day"`, `"long trip"` does (so `"weekend"`, which contains
`"week"`, always selects the long branch instead). -/
theorem claim_C7 :
    (∀ q, ¬ (("travel size toiletries".toList) ∈ generate_smart_packing_list q
        ∧ ("laundry detergent pods".toList) ∈ generate_smart_packing_list q))
    ∧ (∀ q, (∃ w ∈ shortDurWords, w <:+: pyLower q) →
        (∀ w ∈ longDurWords, ¬ w <:+: pyLower q) →
        (∀ x ∈ shortDurItems, x ∈ generate_smart_packing_list q)
        ∧ (∀ x ∈ longDurItems, x ∉ generate_smart_packing_list q)) := by
  have hclimate : ∀ x ∈ shortDurItems ++ longDurItems,
      ∀ kv ∈ climate_items, x ∉ kv.2 := by decide
  have hacts : ∀ x ∈ shortDurItems ++ longDurItems,
      ∀ kv ∈ activities_items, x ∉ kv.2 := by decide
  have hbase : ∀ x ∈ shortDurItems ++ longDurItems, x ∉ base_items := by decide
  have hnotIn : ∀ x ∈ shortDurItems ++ longDurItems, ∀ q,
      x ∉ climateScan climate_items (pyLower q)
      ∧ x ∉ activityConcat activities_items (pyLower q) := by
    intro x hx q
    constructor
    · intro hmem
      obtain ⟨kv, hkv, hx2⟩ := mem_climateScan _ _ _ hmem
      exact hclimate x hx kv hkv hx2
    · intro hmem
      obtain ⟨kv, hkv, hx2⟩ := mem_activityConcat _ _ _ hmem
      exact hacts x hx kv hkv hx2
  constructor
  · intro q ⟨hshort, hlong⟩
    rw [mem_generate_smart_packing_list] at hshort hlong
    have hs2 := hnotIn ("travel size toiletries".toList) (by decide) q
    have hl2 := hnotIn ("laundry detergent pods".toList) (by decide) q
    rcases hshort with hshort | hshort | hshort
    · rcases hlong with hlong | hlong | hlong
      · by_cases hL : longDurWords.any (fun w => pyContains w (pyLower q)) = true
        · rw [if_pos hL] at hshort
          rcases List.mem_append.mp hshort with h | h
          · exact absurd h (hbase _ (by decide))
          · exact absurd h (by decide)
        · rw [if_neg hL] at hshort hlong
          by_cases hS : shortDurWords.any (fun w => pyContains w (pyLower q)) = true
          · rw [if_pos hS] at hlong
            rcases List.mem_append.mp hlong with h | h
            · exact absurd h (hbase _ (by decide))
            · exact absurd h (by decide)
          · rw [if_neg hS] at hshort
            exact absurd hshort (hbase _ (by decide))
      · exact hl2.1 hlong
      · exact hl2.2 hlong
    · exact hs2.1 hshort
    · exact hs2.2 hshort
  · intro q hex hnone
    have hL : longDurWords.any (fun w => pyContains w (pyLower q)) = false := by
      rw [List.any_eq_false]
      intro w hw
      simp only [pyContains, Bool.not_eq_true, decide_eq_false_iff_not]
      exact hnone w hw
    have hS : shortDurWords.any (fun w => pyContains w (pyLower q)) = true := by
      rw [List.any_eq_true]
      obtain ⟨w, hw, hinf⟩ := hex
      exact ⟨w, hw, by simpa [pyContains] using hinf⟩
    constructor
    · intro x hx
      rw [mem_generate_smart_packing_list, if_neg (by simp [hL]), if_pos hS]
      exact Or.inl (List.mem_append.mpr (Or.inr hx))
    · intro x hx hmem
      rw [mem_generate_smart_packing_list, if_neg (by simp [hL]), if_pos hS] at hmem
      have hni := hnotIn x (List.mem_append.mpr (Or.inr hx)) q
      rcases hmem with hmem | hmem | hmem
      · rcases List.mem_append.mp hmem with h | h
        · exact hbase x (List.mem_append.mpr (Or.inr hx)) h
        · simp only [longDurItems, List.mem_cons, List.not_mem_nil, or_false] at hx
          rcases hx with rfl | rfl | rfl <;> exact absurd h (by decide)
      · exact hni.1 hmem
      · exact hni.2 hmem

theorem claim_C7_witness :
    (∃ w ∈ shortDurWords, w <:+: pyLower ("2 day trip to paris".toList))
    ∧ (∀ w ∈ longDurWords, ¬ w <:+: pyLower ("2 day trip to paris".toList))
    ∧ (∀ x ∈ shortDurItems, x ∈ generate_smart_packing_list ("2 day trip to paris".toList))
    ∧ (∀ x ∈ longDurItems, x ∉ generate_smart_packing_list ("2 day trip to paris".toList)) := by
  have h := claim_C7.2 ("2 day trip to paris".toList) (by decide) (by decide)
  exact ⟨by decide, by decide, h.1, h.2⟩

theorem pyReplaceFuel_no_occ (p r : Str) (fuel : Nat) (s : Str)
    (hne : p ≠ []) (hni : ¬ (p <:+: s)) (hf : s.length ≤ fuel) :
    pyReplaceFuel p r fuel s = s := by
  induction fuel generalizing s with
  | zero => rfl
  | succ fuel ih =>
    match s with
    | [] => rfl
    | c :: rest =>
      have hcond : ¬ (0 < p.length ∧ p <+: (c :: rest)) := by
        rintro ⟨-, hpre⟩
        exact hni hpre.isInfix
      rw [pyReplaceFuel, if_neg hcond]
      have hni2 : ¬ (p <:+: rest) := fun h => hni (List.infix_cons h)
      have hf2 : rest.length ≤ fuel := by
        simpa [List.length_cons] using Nat.lt_succ_iff.mp (Nat.lt_of_lt_of_le
          (Nat.lt_succ_of_le (Nat.le_refl rest.length)) hf)
      rw [ih rest hni2 hf2]

theorem pyReplace_no_occ (p r s : Str) (hne : p ≠ []) (hni : ¬ (p <:+: s)) :
    pyReplace s p r = s := by
  have hpe : p.isEmpty = false := by
    cases p with
    | nil => exact absurd rfl hne
    | cons c t => rfl
  rw [pyReplace, hpe]
  exact pyReplaceFuel_no_occ p r s.length s hne hni (Nat.le_refl _)

theorem stripTrailing_isPrefix (t : Str) : stripTrailing t <+: t := by
  have h := List.reverse_prefix.mpr (List.dropWhile_suffix (l := t.reverse) isSpaceCh)
  rwa [List.reverse_reverse] at h

theorem pyStrip_isSub (s : Str) : pyStrip s <:+: s :=
  (stripTrailing_isPrefix (stripLeading s)).isInfix.trans
    (List.dropWhile_suffix isSpaceCh).isInfix

theorem not_infix_pyStrip (p s : Str) (h : ¬ (p <:+: s)) : ¬ (p <:+: pyStrip s) :=
  fun hp => h (hp.trans (pyStrip_isSub s))

theorem pyWordsAux_spaces (u : Str) (hu : ∀ c ∈ u, isSpaceCh c = true) (acc : Str) :
    pyWordsAux acc u = pyWordsAux acc [] := by
  induction u generalizing acc with
  | nil => rfl
  | cons c u ih =>
    have hc : isSpaceCh c = true := hu c (List.mem_cons_self c u)
    have hu2 : ∀ d ∈ u, isSpaceCh d = true := fun d hd => hu d (List.mem_cons_of_mem c hd)
    by_cases ha : acc.isEmpty = true
    · simp [pyWordsAux, hc, ha, ih hu2 []]
    · simp [pyWordsAux, hc, ha, ih hu2 []]

theorem pyWordsAux_trailing (u : Str) (hu : ∀ c ∈ u, isSpaceCh c = true) (t acc : Str) :
    pyWordsAux acc (t ++ u) = pyWordsAux acc t := by
  induction t generalizing acc with
  | nil => simpa using pyWordsAux_spaces u hu acc
  | cons c t ih =>
    by_cases hc : isSpaceCh c = true
    · by_cases ha : acc.isEmpty = true
      · simp [pyWordsAux, hc, ha, ih]
      · simp [pyWordsAux, hc, ha, ih]
    · simp [pyWordsAux, hc, ih]

theorem pyWords_stripLeading (s : Str) : pyWords (stripLeading s) = pyWords s := by
  induction s with
  | nil => rfl
  | cons c rest ih =>
    by_cases hc : isSpaceCh c = true
    · have : stripLeading (c :: rest) = stripLeading rest := by
        simp [stripLeading, List.dropWhile_cons, hc]
      rw [this, ih]
      simp [pyWords, pyWordsAux, hc]
    · simp [stripLeading, List.dropWhile_cons, hc]

theorem stripTrailing_decomp (t : Str) :
    t = stripTrailing t ++ (t.reverse.takeWhile isSpaceCh).reverse
    ∧ ∀ c ∈ (t.reverse.takeWhile isSpaceCh).reverse, isSpaceCh c = true := by
  constructor
  · have h := congrArg List.reverse (List.takeWhile_append_dropWhile
      (p := isSpaceCh) (l := t.reverse))
    rw [List.reverse_append, List.reverse_reverse] at h
    exact h.symm
  · intro c hc
    exact List.mem_takeWhile_imp (List.mem_reverse.mp hc)

theorem pyWords_pyStrip (s : Str) : pyWords (pyStrip s) = pyWords s := by
  obtain ⟨hdec, hsp⟩ := stripTrailing_decomp (stripLeading s)
  have h1 : pyWords (stripLeading s) = pyWords (pyStrip s) := by
    calc pyWords (stripLeading s)
        = pyWordsAux [] (stripTrailing (stripLeading s) ++
            ((stripLeading s).reverse.takeWhile isSpaceCh).reverse) := by
          rw [pyWords, ← hdec]
      _ = pyWordsAux [] (stripTrailing (stripLeading s)) := pyWordsAux_trailing _ hsp _ []
      _ = pyWords (pyStrip s) := rfl
  rw [← h1, pyWords_stripLeading]

theorem pyCollapse_pyStrip (s : Str) : pyCollapse (pyStrip s) = pyCollapse s := by
  rw [pyCollapse, pyCollapse, pyWords_pyStrip]

theorem fold_strip_replace (fs : List Str) (q0 : Str)
    (h : ∀ f ∈ fs, f ≠ [] ∧ ¬ (f <:+: q0)) :
    pyWords (fs.foldl (fun q f => pyStrip (pyReplace q f [])) q0) = pyWords q0
    ∧ (fs.foldl (fun q f => pyStrip (pyReplace q f [])) q0) <:+: q0 := by
  induction fs generalizing q0 with
  | nil => exact ⟨rfl, List.infix_refl q0⟩
  | cons f fs ih =>
    obtain ⟨hne, hni⟩ := h f (List.mem_cons_self f fs)
    have hstep : pyStrip (pyReplace q0 f []) = pyStrip q0 := by
      rw [pyReplace_no_occ f [] q0 hne hni]
    have h2 : ∀ g ∈ fs, g ≠ [] ∧ ¬ (g <:+: pyStrip q0) := by
      intro g hg
      obtain ⟨hg1, hg2⟩ := h g (List.mem_cons_of_mem f hg)
      exact ⟨hg1, not_infix_pyStrip g q0 hg2⟩
    have hfold : (f :: fs).foldl (fun q g => pyStrip (pyReplace q g [])) q0
        = fs.foldl (fun q g => pyStrip (pyReplace q g [])) (pyStrip q0) := by
      rw [List.foldl_cons, hstep]
    obtain ⟨ihw, ihinf⟩ := ih (pyStrip q0) h2
    rw [hfold, ihw]
    exact ⟨pyWords_pyStrip q0, ihinf.trans (pyStrip_isSub q0)⟩

/-- Claim C6 counterexample: `"I want shoes"` contains none of the six filler
phrases the claim lists and no expansion keyword, yet
`optimize_search_query` does not return the collapsed lower-cased input: the
source's filler list also contains `"i want"`, which is removed. -/
theorem claim_C6_counterexample :
    (∀ f ∈ [("i need".toList), ("looking for".toList), ("find me".toList),
        ("search for".toList), ("show me".toList), ("get me".toList)],
      ¬ (f <:+: pyLower ("I want shoes".toList)))
    ∧ (∀ kv ∈ improvements, ¬ (kv.1 <:+: pyLower ("I want shoes".toList)))
    ∧ optimize_search_query ("I want shoes".toList)
        ≠ pyCollapse (pyLower ("I want shoes".toList))
    ∧ optimize_search_query ("I want shoes".toList) = ("shoes".toList) := by
  refine ⟨by decide, by decide, by decide, by decide⟩

/-- Claim C6, amended: the source removes seven filler phrases — the six the
claim lists plus `"i want"` — as literal substrings of the lower-cased input;
for every input whose lower-casing contains none of the seven and no
expansion keyword, the function returns the lower-cased input with
consecutive whitespace collapsed to single spaces and trimmed. -/
theorem claim_C6 :
    (∀ s : Str, (∀ f ∈ filler_words, ¬ (f <:+: pyLower s)) →
      (∀ kv ∈ improvements, ¬ (kv.1 <:+: pyLower s)) →
      optimize_search_query s = pyCollapse (pyLower s))
    ∧ optimize_search_query ("I want shoes".toList) = ("shoes".toList) := by
  constructor
  · intro s hf hk
    have hne : ∀ f ∈ filler_words, f ≠ [] := by decide
    obtain ⟨hw, hinf⟩ := fold_strip_replace filler_words (pyLower s)
      (fun f hf2 => ⟨hne f hf2, hf f hf2⟩)
    have hfind : improvements.find? (fun kv => pyContains kv.1
        (filler_words.foldl (fun q f => pyStrip (pyReplace q f [])) (pyLower s))
          && ! pyContains kv.2
        (filler_words.foldl (fun q f => pyStrip (pyReplace q f [])) (pyLower s))) = none := by
      rw [List.find?_eq_none]
      intro kv hkv
      have : pyContains kv.1
          (filler_words.foldl (fun q f => pyStrip (pyReplace q f [])) (pyLower s)) = false := by
        simp only [pyContains, decide_eq_false_iff_not]
        exact fun hc => hk kv hkv (hc.trans hinf)
      simp [this]
    simp only [optimize_search_query, hfind]
    rw [pyCollapse, hw, ← pyCollapse]
  · decide

theorem claim_C6_witness :
    (∀ f ∈ filler_words, ¬ (f <:+: pyLower ("comfy shoes".toList)))
    ∧ (∀ kv ∈ improvements, ¬ (kv.1 <:+: pyLower ("comfy shoes".toList)))
    ∧ optimize_search_query ("comfy shoes".toList)
        = pyCollapse (pyLower ("comfy shoes".toList)) := by
  exact ⟨by decide, by decide, claim_C6.1 ("comfy shoes".toList) (by decide) (by decide)⟩

/-- Claim C3: whenever the pipeline inside the `try` of
`search_amazon_products` raises — the provider call or the internal
`float(...)` — the function returns `success = false`, no products,
`total_results = 0` and the exception text in `error`; being a total
function of the provider outcome it never propagates an exception. -/
theorem claim_C3 (provider : Provider) (query : Str) (maxResults : Nat) (minRating : ℚ)
    (e : Str) (h : collectStage provider query maxResults minRating = Except.error e) :
    search_amazon_products provider query maxResults minRating =
      { success := false, products := [], total_results := 0, error := some e } := by
  rw [search_amazon_products, h]

theorem claim_C3_witness :
    collectStage witProvErr ("usb cable".toList) 15 (mkRat 7 2) =
      Except.error ("boom".toList)
    ∧ search_amazon_products witProvErr ("usb cable".toList) 15 (mkRat 7 2) =
      { success := false, products := [], total_results := 0,
        error := some ("boom".toList) } :=
  ⟨by decide, claim_C3 witProvErr ("usb cable".toList) 15 (mkRat 7 2) ("boom".toList)
    (by decide)⟩

theorem processRecord_keep (minRating : ℚ) (r : RawProduct) (p : Product)
    (h : processRecord minRating r = Except.ok (RecStep.keep p)) :
    p.asin ≠ [] ∧ ¬ (0 < p.rating ∧ p.rating < minRating) := by
  simp only [processRecord] at h
  split at h
  next h1 => simp at h
  next h1 =>
    split at h
    next e hp => simp at h
    next pv hp =>
      split at h
      next h2 => simp at h
      next h2 =>
        simp only [Except.ok.injEq, RecStep.keep.injEq] at h
        subst h
        refine ⟨?_, h1⟩
        simpa [List.isEmpty_iff] using h2

theorem collectLoop_invariant (minRating : ℚ) (maxResults : Nat) :
    ∀ (rs : List RawProduct) (acc l : List Product),
      (∀ p ∈ acc, p.asin ≠ [] ∧ ¬ (0 < p.rating ∧ p.rating < minRating)) →
      collectLoop minRating maxResults acc rs = Except.ok l →
      ∀ p ∈ l, p.asin ≠ [] ∧ ¬ (0 < p.rating ∧ p.rating < minRating) := by
  intro rs
  induction rs with
  | nil =>
    intro acc l hacc h
    simp only [collectLoop, Except.ok.injEq] at h
    exact h ▸ hacc
  | cons r rs ih =>
    intro acc l hacc h
    rw [collectLoop] at h
    split at h
    next e hpr => simp at h
    next hpr => exact ih acc l hacc h
    next hpr =>
      split at h
      next hlen =>
        simp only [Except.ok.injEq] at h
        exact h ▸ hacc
      next hlen => exact ih acc l hacc h
    next p2 hpr =>
      have hp := processRecord_keep minRating r p2 hpr
      have hacc2 : ∀ q ∈ acc ++ [p2],
          q.asin ≠ [] ∧ ¬ (0 < q.rating ∧ q.rating < minRating) := by
        intro q hq
        rcases List.mem_append.mp hq with hq | hq
        · exact hacc q hq
        · rcases List.mem_singleton.mp hq with rfl
          exact hp
      split at h
      next hlen =>
        simp only [Except.ok.injEq] at h
        exact h ▸ hacc2
      next hlen => exact ih (acc ++ [p2]) l hacc2 h

theorem search_amazon_products_invariant (provider : Provider) (query : Str)
    (maxResults : Nat) (minRating : ℚ) :
    ∀ p ∈ (search_amazon_products provider query maxResults minRating).products,
      p.asin ≠ [] ∧ ¬ (0 < p.rating ∧ p.rating < minRating) := by
  intro p hp
  rw [search_amazon_products] at hp
  cases hcs : collectStage provider query maxResults minRating with
  | error e => rw [hcs] at hp; simp at hp
  | ok l =>
    rw [hcs] at hp
    simp only at hp
    have hmem : p ∈ l := (List.perm_insertionSort keyGe l).mem_iff.mp hp
    rw [collectStage] at hcs
    cases hpr : provider
        { k := optimize_search_query query,
          low_price := truthyNat (extract_price_range query).1,
          high_price := truthyNat (extract_price_range query).2 } with
    | error e => rw [hpr] at hcs; simp at hcs
    | ok raws =>
      rw [hpr] at hcs
      exact collectLoop_invariant minRating maxResults raws [] l (by simp) hcs p hmem

theorem tryAttempts_products (provider : Provider) :
    ∀ (qs : List Str) (le : Option Str),
      (tryAttempts provider qs le).1 = []
      ∨ ∃ q, (tryAttempts provider qs le).1 =
          (search_amazon_products provider q 12 (mkRat 7 2)).products := by
  intro qs
  induction qs with
  | nil => intro le; exact Or.inl rfl
  | cons q qs ih =>
    intro le
    rw [tryAttempts]
    by_cases hc : ((search_amazon_products provider q 12 (mkRat 7 2)).success
        && ! (search_amazon_products provider q 12 (mkRat 7 2)).products.isEmpty) = true
    · rw [if_pos hc]
      exact Or.inr ⟨q, rfl⟩
    · rw [if_neg hc]
      exact ih _

/-- Claim C1 counterexample: a provider record with the malformed rating
`-1` passes the `rating > 0 and rating < min_rating` filter and is returned,
so not every returned product has rating 0 or at least `min_rating`. -/
theorem claim_C1_counterexample :
    ((search_amazon_products witProvNeg ("usb cable".toList) 15 (mkRat 7 2)).products.map
        (fun p => p.rating)) = [(-1 : ℚ)]
    ∧ ¬ (∀ p ∈ (search_amazon_products witProvNeg ("usb cable".toList) 15
          (mkRat 7 2)).products,
        p.asin ≠ [] ∧ (p.rating = 0 ∨ mkRat 7 2 ≤ p.rating)) := by
  refine ⟨by decide, by decide⟩

/-- Claim C1, amended: every product returned by `search_amazon_products`
(and hence by `search_products`, which uses the default `min_rating` 3.5)
has a non-empty identifier and a rating that is not strictly between 0 and
`min_rating`; equivalently, records lacking an identifier are excluded
regardless of rating, and records with `0 < rating < min_rating` are
excluded.  (A malformed rating below 0 — impossible for a well-formed
provider — is retained, so "rating 0 or at least `min_rating`" is the claim's
sole overstatement.) -/
theorem claim_C1 :
    (∀ (provider : Provider) (query : Str) (maxResults : Nat) (minRating : ℚ),
      ∀ p ∈ (search_amazon_products provider query maxResults minRating).products,
        p.asin ≠ [] ∧ ¬ (0 < p.rating ∧ p.rating < minRating))
    ∧ (∀ (provider : Provider) (user_id question : Str),
      ∀ p ∈ (search_products provider user_id question).products,
        p.asin ≠ [] ∧ ¬ (0 < p.rating ∧ p.rating < mkRat 7 2)) := by
  refine ⟨search_amazon_products_invariant, ?_⟩
  intro provider user_id question p hp
  rw [search_products] at hp
  by_cases he : (tryAttempts provider (search_attempts question) none).1.isEmpty = true
  · rw [if_pos he] at hp
    simp at hp
  · rw [if_neg he] at hp
    simp only at hp
    rcases tryAttempts_products provider (search_attempts question) none with h | ⟨q, h⟩
    · rw [h] at hp
      simp at hp
    · rw [h] at hp
      exact search_amazon_products_invariant provider q 12 (mkRat 7 2) p hp

theorem claim_C1_witness :
    witProdGood ∈ (search_amazon_products witProvOne ("usb cable".toList) 15
        (mkRat 7 2)).products
    ∧ witProdGood.asin ≠ []
    ∧ ¬ (0 < witProdGood.rating ∧ witProdGood.rating < mkRat 7 2) := by
  have h := claim_C1.1 witProvOne ("usb cable".toList) 15 (mkRat 7 2) witProdGood (by decide)
  exact ⟨by decide, h.1, h.2⟩

theorem filter_pySortDesc (l : List Product) (pr : Product → Bool)
    (hp : ∀ a b, pr a = true → pr b = true → keyGe a b) :
    (pySortDesc l).filter pr = l.filter pr := by
  have hpair : (l.filter pr).Pairwise keyGe := by
    apply List.pairwise_of_forall_mem_list
    intro a ha b hb
    exact hp a b (List.mem_filter.mp ha).2 (List.mem_filter.mp hb).2
  have hsub : List.Sublist (l.filter pr) (List.insertionSort keyGe l) :=
    List.sublist_insertionSort hpair (List.filter_sublist l)
  have hsub2 : List.Sublist (l.filter pr) ((List.insertionSort keyGe l).filter pr) := by
    have h2 := hsub.filter pr
    rwa [List.filter_eq_self.mpr (fun a ha => (List.mem_filter.mp ha).2)] at h2
  have hlen : ((List.insertionSort keyGe l).filter pr).length = (l.filter pr).length :=
    ((List.perm_insertionSort keyGe l).filter pr).length_eq
  exact (hsub2.eq_of_length hlen.symm).symm

/-- Claim C2: on every successful call with at least two results, the
returned list is sorted non-increasingly by the lexicographic key
`(rating, reviews)`, and the sort is stable: for every key value, the
products carrying that key appear in the same order as in the list collected
from the provider before sorting (`collectStage`). -/
theorem claim_C2 (provider : Provider) (query : Str) (maxResults : Nat) (minRating : ℚ)
    (l : List Product) (h : collectStage provider query maxResults minRating = Except.ok l)
    (h2 : 2 ≤ (search_amazon_products provider query maxResults minRating).products.length) :
    (search_amazon_products provider query maxResults minRating).products.Pairwise keyGe
    ∧ ∀ k : ℚ × Int,
      (search_amazon_products provider query maxResults minRating).products.filter
          (fun p => decide (prodKey p = k))
        = l.filter (fun p => decide (prodKey p = k)) := by
  have hprod : (search_amazon_products provider query maxResults minRating).products
      = pySortDesc l := by
    rw [search_amazon_products, h]
  rw [hprod]
  constructor
  · exact List.sorted_insertionSort keyGe l
  · intro k
    obtain ⟨k1, k2⟩ := k
    apply filter_pySortDesc
    intro a b ha hb
    simp only [decide_eq_true_eq, prodKey, Prod.mk.injEq] at ha hb
    exact Or.inr ⟨hb.1.trans ha.1.symm, le_of_eq (hb.2.trans ha.2.symm)⟩

theorem claim_C2_witness :
    collectStage witProvTwo ("usb cable".toList) 15 (mkRat 7 2) =
      Except.ok [witProdGood, witProdGood2]
    ∧ 2 ≤ (search_amazon_products witProvTwo ("usb cable".toList) 15
        (mkRat 7 2)).products.length
    ∧ (search_amazon_products witProvTwo ("usb cable".toList) 15
        (mkRat 7 2)).products.Pairwise keyGe
    ∧ ∀ k : ℚ × Int,
      (search_amazon_products witProvTwo ("usb cable".toList) 15
          (mkRat 7 2)).products.filter (fun p => decide (prodKey p = k))
        = [witProdGood, witProdGood2].filter (fun p => decide (prodKey p = k)) := by
  have h := claim_C2 witProvTwo ("usb cable".toList) 15 (mkRat 7 2)
    [witProdGood, witProdGood2] (by decide) (by decide)
  exact ⟨by decide, by decide, h.1, h.2⟩

theorem attempt_cond_iff (provider : Provider) (a : Str) :
    ((search_amazon_products provider a 12 (mkRat 7 2)).success
      && ! (search_amazon_products provider a 12 (mkRat 7 2)).products.isEmpty) = true
    ↔ attemptOk provider a := by
  simp [attemptOk, List.isEmpty_iff]

theorem tryAttempts_fail_products (provider : Provider) :
    ∀ (qs : List Str) (le : Option Str), (∀ a ∈ qs, ¬ attemptOk provider a) →
      (tryAttempts provider qs le).1 = [] := by
  intro qs
  induction qs with
  | nil => intro le h; rfl
  | cons q qs ih =>
    intro le h
    rw [tryAttempts]
    rw [if_neg (fun hc => h q (List.mem_cons_self q qs) ((attempt_cond_iff provider q).mp hc))]
    exact ih _ (fun a ha => h a (List.mem_cons_of_mem q ha))

theorem tryAttempts_fail_error (provider : Provider) :
    ∀ (qs : List Str) (le : Option Str), qs ≠ [] → (∀ a ∈ qs, ¬ attemptOk provider a) →
      (tryAttempts provider qs le).2 = some (attErr provider (qs.getLastD [])) := by
  intro qs
  induction qs with
  | nil => intro le hne h; exact absurd rfl hne
  | cons q qs ih =>
    intro le hne h
    rw [tryAttempts]
    rw [if_neg (fun hc => h q (List.mem_cons_self q qs) ((attempt_cond_iff provider q).mp hc))]
    cases qs with
    | nil => rfl
    | cons q2 rest =>
      rw [ih _ (List.cons_ne_nil q2 rest) (fun a ha => h a (List.mem_cons_of_mem q ha))]
      rfl

theorem tryAttempts_first_success (provider : Provider) :
    ∀ (qs : List Str) (le : Option Str) (i : Nat), i < qs.length →
      (∀ j, j < i → ¬ attemptOk provider (qs.getD j [])) →
      attemptOk provider (qs.getD i []) →
      (tryAttempts provider qs le).1 =
        (search_amazon_products provider (qs.getD i []) 12 (mkRat 7 2)).products := by
  intro qs
  induction qs with
  | nil => intro le i hi; exact absurd hi (by simp)
  | cons q qs ih =>
    intro le i hi hbefore hok
    cases i with
    | zero =>
      rw [tryAttempts]
      rw [if_pos ((attempt_cond_iff provider q).mpr (by simpa using hok))]
      simp
    | succ i =>
      have h0 : ¬ attemptOk provider q := by
        have := hbefore 0 (Nat.succ_pos i)
        simpa using this
      rw [tryAttempts]
      rw [if_neg (fun hc => h0 ((attempt_cond_iff provider q).mp hc))]
      have := ih (some ((search_amazon_products provider q 12
        (mkRat 7 2)).error.getD ("No products found".toList))) i
        (by simpa [Nat.succ_lt_succ_iff] using hi)
        (fun j hj => by simpa using hbefore (j + 1) (Nat.succ_lt_succ hj))
        (by simpa using hok)
      simpa using this

theorem search_attempts_ne_nil (question : Str) : search_attempts question ≠ [] := by
  rw [search_attempts]
  split
  · split <;> simp
  · split <;> simp

/-- Claim C4: if every query variant fails or yields no products, then
`search_products` returns empty ASIN and product lists and an answer that
contains the last recorded error (the error of the last attempt, or the
default `No products found`); otherwise the returned products are those of
the first variant — in the order original question, normalized question,
optional quality variant, optional budget variant — that succeeds with at
least one qualifying product. -/
theorem claim_C4 :
    (∀ (provider : Provider) (user_id question : Str),
      (∀ a ∈ search_attempts question, ¬ attemptOk provider a) →
      (search_products provider user_id question).asins = []
      ∧ (search_products provider user_id question).products = []
      ∧ attErr provider ((search_attempts question).getLastD []) <:+:
          (search_products provider user_id question).answer)
    ∧ (∀ (provider : Provider) (user_id question : Str) (i : Nat),
      i < (search_attempts question).length →
      (∀ j, j < i → ¬ attemptOk provider ((search_attempts question).getD j [])) →
      attemptOk provider ((search_attempts question).getD i []) →
      (search_products provider user_id question).products =
        (search_amazon_products provider ((search_attempts question).getD i []) 12
          (mkRat 7 2)).products) := by
  constructor
  · intro provider user_id question h
    have h1 := tryAttempts_fail_products provider (search_attempts question) none h
    have h2 := tryAttempts_fail_error provider (search_attempts question) none
      (search_attempts_ne_nil question) h
    rw [search_products]
    rw [if_pos (by simp [h1])]
    refine ⟨rfl, rfl, ?_⟩
    rw [h2, noProductsAnswer, optToStr]
    exact ⟨("No products found matching '".toList) ++ question ++
      ("'. Try being more specific or using different keywords. Error: ".toList), [],
      by simp⟩
  · intro provider user_id question i hi hbefore hok
    have h1 := tryAttempts_first_success provider (search_attempts question) none i hi
      hbefore hok
    have hne : ¬ ((tryAttempts provider (search_attempts question) none).1.isEmpty = true) := by
      rw [h1]
      intro hcontra
      exact hok.2 (List.isEmpty_iff.mp hcontra)
    rw [search_products]
    rw [if_neg hne]
    exact h1

theorem claim_C4_witness :
    ((search_products witProvErr ("u1".toList) ("red shoes".toList)).asins = []
    ∧ (search_products witProvErr ("u1".toList) ("red shoes".toList)).products = []
    ∧ attErr witProvErr ((search_attempts ("red shoes".toList)).getLastD []) <:+:
        (search_products witProvErr ("u1".toList) ("red shoes".toList)).answer)
    ∧ (search_products witProvOne ("u1".toList) ("red shoes".toList)).products =
        (search_amazon_products witProvOne
          ((search_attempts ("red shoes".toList)).getD 0 []) 12 (mkRat 7 2)).products := by
  constructor
  · exact claim_C4.1 witProvErr ("u1".toList) ("red shoes".toList) (by decide)
  · exact claim_C4.2 witProvOne ("u1".toList) ("red shoes".toList) 0 (by decide)
      (fun j hj => absurd hj (Nat.not_lt_zero j)) (by decide)

theorem filterMap_asin (l : List Product) (h : ∀ p ∈ l, p.asin ≠ []) :
    l.filterMap (fun p => if p.asin.isEmpty then none else some p.asin)
      = l.map (fun p => p.asin) := by
  induction l with
  | nil => rfl
  | cons p ps ih =>
    have hp : p.asin.isEmpty = false := by
      have := h p (List.mem_cons_self p ps)
      simpa [List.isEmpty_iff] using this
    rw [List.filterMap_cons, List.map_cons, hp]
    simp only [Bool.false_eq_true, if_false]
    rw [ih (fun q hq => h q (List.mem_cons_of_mem p hq))]

/-- Claim C10 (implicit): whenever `search_products` returns a non-empty
product list, the `asins` list is exactly the identifier of each product in
order — same length, element for element — because every retained product
has a non-empty `asin`, so the truthiness filter in the extraction drops
nothing. -/
theorem claim_C10 (provider : Provider) (user_id question : Str)
    (h : (search_products provider user_id question).products ≠ []) :
    (search_products provider user_id question).asins =
      (search_products provider user_id question).products.map (fun p => p.asin)
    ∧ (search_products provider user_id question).asins.length =
      (search_products provider user_id question).products.length := by
  have hasin : ∀ p ∈ (search_products provider user_id question).products, p.asin ≠ [] :=
    fun p hp => (claim_C1.2 provider user_id question p hp).1
  rw [search_products] at hasin h ⊢
  by_cases he : (tryAttempts provider (search_attempts question) none).1.isEmpty = true
  · rw [if_pos he] at h
    simp at h
  · rw [if_neg he] at hasin h ⊢
    simp only at hasin h ⊢
    refine ⟨?_, ?_⟩
    · exact filterMap_asin _ hasin
    · rw [filterMap_asin _ hasin, List.length_map]

theorem claim_C10_witness :
    (search_products witProvOne ("u1".toList) ("red shoes".toList)).products ≠ []
    ∧ (search_products witProvOne ("u1".toList) ("red shoes".toList)).asins =
      (search_products witProvOne ("u1".toList) ("red shoes".toList)).products.map
        (fun p => p.asin) :=
  ⟨by decide, (claim_C10 witProvOne ("u1".toList) ("red shoes".toList) (by decide)).1⟩

theorem stripLeading_cons_nonspace (c : Char) (t : Str) (h : isSpaceCh c = false) :
    stripLeading (c :: t) = c :: t := by
  simp [stripLeading, List.dropWhile_cons, h]

theorem stripTrailing_append_nonspace (u : Str) (c : Char) (h : isSpaceCh c = false) :
    stripTrailing (u ++ [c]) = u ++ [c] := by
  rw [stripTrailing, List.reverse_append]
  simp [List.dropWhile_cons, h]

theorem pyStrip_packingFailAnswer (question : Str) :
    pyStrip (packingFailAnswer question) = packingFailAnswer question := by
  have hcons : packingFailAnswer question =
      'U' :: (("nable to find specific product recommendations for your packing list: ".toList)
        ++ question ++ (". Try searching for individual items.".toList)) := rfl
  have hsnoc : packingFailAnswer question =
      (("Unable to find specific product recommendations for your packing list: ".toList)
        ++ question ++ (". Try searching for individual items".toList)) ++ ['.'] := by
    rw [packingFailAnswer]
    simp only [List.append_assoc, List.cons_append, List.nil_append]
    rfl
  have h1 : stripLeading (packingFailAnswer question) = packingFailAnswer question := by
    rw [hcons, stripLeading_cons_nonspace _ _ (by decide)]
  have h2 : stripTrailing (packingFailAnswer question) = packingFailAnswer question := by
    rw [hsnoc, stripTrailing_append_nonspace _ _ (by decide)]
  rw [pyStrip, h1, h2]

theorem plFold_all_fail (provider : Provider) :
    ∀ (items : List Str) (st : PLState),
      (∀ i ∈ items, searchItemProducts provider i = []) →
      (items.foldl (plStep provider) st).results = st.results
      ∧ (items.foldl (plStep provider) st).asins = st.asins := by
  intro items
  induction items with
  | nil => intro st h; exact ⟨rfl, rfl⟩
  | cons i items ih =>
    intro st h
    have hi : searchItemProducts provider i = [] := h i (List.mem_cons_self i items)
    have hstep : plStep provider st i =
        { st with failed := st.failed ++ [i], answer := st.answer ++ itemFailSection i } := by
      rw [plStep, hi]
      rfl
    rw [List.foldl_cons, hstep]
    exact ih _ (fun j hj => h j (List.mem_cons_of_mem i hj))

/-- Claim C9: when every priority packing item finds no products (all three
query variants fail or return nothing for each of the first ten items), the
returned answer is exactly the single aggregate failure message — the
per-item failure sections built along the way are discarded — and the ASIN
dict and item list are empty. -/
theorem claim_C9 (provider : Provider) (user_id question : Str)
    (h : ∀ item ∈ (generate_smart_packing_list question).take 10,
      searchItemProducts provider item = []) :
    generate_packing_list provider user_id question =
      { answer := packingFailAnswer question, asins := [], items := [] } := by
  obtain ⟨hres, hasin⟩ := plFold_all_fail provider
    ((generate_smart_packing_list question).take 10)
    { answer := ("🎒 **Smart Packing List for: ".toList) ++ question ++ ("**\n\n".toList),
      asins := [], results := [], failed := [] } h
  rw [generate_packing_list]
  simp only at hres hasin ⊢
  rw [hres, hasin]
  simp only [List.isEmpty_nil, Bool.not_true, Bool.false_eq_true, if_false]
  rw [pyStrip_packingFailAnswer]

theorem claim_C9_witness :
    (∀ item ∈ (generate_smart_packing_list ("hiking trip".toList)).take 10,
      searchItemProducts witProvErr item = [])
    ∧ generate_packing_list witProvErr ("u1".toList) ("hiking trip".toList) =
      { answer := packingFailAnswer ("hiking trip".toList), asins := [], items := [] } :=
  ⟨by decide, claim_C9 witProvErr ("u1".toList) ("hiking trip".toList) (by decide)⟩

end SerpTools
